import Mathlib

/-!
# Onboarding flow of the React front end

A shallow embedding of `frontend/src/App.js`,
`frontend/src/components/Apply/ApplicationForm.jsx` and
`frontend/src/components/Onboarding/OnboardingFlow.jsx`.

* React state (`useState`) is a record; an event handler is a function from the
  state before the event and the outcome of its HTTP request to the state after
  the handler has run to completion (`try` / `catch` / `finally` included).
* A request either resolves with `response.data` or rejects with an error whose
  `response.data` may be absent.  Values that come from the backend are
  JavaScript values (`JsVal`): the handlers read properties from them, test
  them for truthiness and compare them with `===`.
* A component's `return (...)` is a function from the state to a `View`, which
  records which branch is rendered, what is shown in it and which handlers are
  bound to its controls.
* Two session models are given.  In `run` every request is atomic: the handler
  of one event finishes before the next event is delivered.  In `Session.run`
  a request stays in flight after the handler has sent it, the user can act
  meanwhile, and each response is delivered on its own to the part of the
  handler that follows the `await`.
-/

namespace Onboarding

/-! ## JavaScript values -/

/-- A JavaScript value as parsed from a JSON body, plus `undefined`.  Numbers are
integers here: only their truthiness (`0` is falsy) is ever inspected. -/
inductive JsVal where
  | undefined
  | null
  | bool (b : Bool)
  | num (n : Int)
  | str (s : String)
  | arr (xs : List JsVal)
  | obj (fields : List (String × JsVal))

namespace JsVal

/-- JavaScript truthiness, as used by `if (v)`, `v && w` and `v || w`. -/
def truthy : JsVal → Bool
  | undefined => false
  | null => false
  | bool b => b
  | num n => decide (n ≠ 0)
  | str s => decide (s ≠ "")
  | arr _ => true
  | obj _ => true

/-- The value bound to `key` in a field list; the last binding wins, as in
`JSON.parse`; `undefined` when there is none. -/
def lookupField (fields : List (String × JsVal)) (key : String) : JsVal :=
  match fields.reverse.find? (fun p => p.1 == key) with
  | some p => p.2
  | none => undefined

/-- The property read `v.key` for a key that is no built-in property
(`can_login`, `city`, `status`, `detail`, `user_id`): `none` stands for the
`TypeError` that reading a property of `null` or `undefined` throws. -/
def getProp (v : JsVal) (key : String) : Option JsVal :=
  match v with
  | undefined => none
  | null => none
  | obj fields => some (lookupField fields key)
  | _ => some undefined

/-- Optional chaining `v?.key`. -/
def optProp (v : JsVal) (key : String) : JsVal :=
  (v.getProp key).getD undefined

/-- The expression `a || b`. -/
def orElse (a b : JsVal) : JsVal :=
  if a.truthy then a else b

end JsVal

/-! ## Requests -/

/-- How an `await api.f(...)` ends: it resolves with `response.data`, or it
rejects with an error `err`; `response` is `err.response.data` when
`err.response` exists and `none` when `err.response` is `undefined`. -/
inductive Outcome where
  | resolved (data : JsVal)
  | rejected (response : Option JsVal)

/-- The expression `err.response?.data?.detail`. -/
def errorDetail (response : Option JsVal) : JsVal :=
  match response with
  | none => JsVal.undefined
  | some data => data.optProp "detail"

/-- The expression `err.response?.data?.detail || fallback` of the `catch`
blocks. -/
def failureMessage (fallback : String) (response : Option JsVal) : JsVal :=
  (errorDetail response).orElse (JsVal.str fallback)

/-! ## OnboardingFlow: state and handlers -/

/-- The values `setStage` is called with, and the initial `'checking'`. -/
inductive Stage where
  | checking
  | waiting
  | password
  | twoFA
  | challenge
  | success
  deriving DecidableEq, Repr

/-- The `useState` cells of `OnboardingFlow`. -/
structure State where
  stage : Stage
  password : String
  code : String
  loading : Bool
  error : JsVal
  userInfo : JsVal

/-- The state on mount: the initial values passed to `useState`. -/
def initialState : State :=
  { stage := Stage.checking, password := "", code := "", loading := false,
    error := JsVal.str "", userInfo := JsVal.null }

/-- The callback `checkStatus`: stores `response.data`, then reads
`response.data.can_login`; a rejection, or the `TypeError` of that read, ends
in the `catch` block. -/
def checkStatus (s : State) : Outcome → State
  | Outcome.resolved data =>
    let s1 := { s with userInfo := data }
    match data.getProp "can_login" with
    | none => { s1 with error := JsVal.str "Failed to check status" }
    | some canLogin =>
      if canLogin.truthy then { s1 with stage := Stage.password }
      else { s1 with stage := Stage.waiting }
  | Outcome.rejected _ => { s with error := JsVal.str "Failed to check status" }

/-- The handler `handlePasswordSubmit`.  A `TypeError` thrown by
`response.data.status` is caught like a rejection without `response`. -/
def handlePasswordSubmit (s : State) (o : Outcome) : State :=
  let s0 := { s with loading := true, error := JsVal.str "" }
  let s1 :=
    match o with
    | Outcome.resolved data =>
      match data.getProp "status" with
      | none => { s0 with error := failureMessage "Login failed" none }
      | some (JsVal.str status) =>
        if status = "2fa_required" then { s0 with stage := Stage.twoFA }
        else if status = "challenge_required" then { s0 with stage := Stage.challenge }
        else if status = "success" then { s0 with stage := Stage.success }
        else s0
      | some _ => s0
    | Outcome.rejected response =>
      { s0 with error := failureMessage "Login failed" response }
  { s1 with loading := false }

/-- The handler `handle2FASubmit`. -/
def handle2FASubmit (s : State) (o : Outcome) : State :=
  let s0 := { s with loading := true, error := JsVal.str "" }
  let s1 :=
    match o with
    | Outcome.resolved data =>
      match data.getProp "status" with
      | none => { s0 with error := failureMessage "2FA failed" none }
      | some (JsVal.str status) =>
        if status = "success" then { s0 with stage := Stage.success } else s0
      | some _ => s0
    | Outcome.rejected response =>
      { s0 with error := failureMessage "2FA failed" response }
  { s1 with loading := false }

/-- The handler `handleChallengeSubmit`. -/
def handleChallengeSubmit (s : State) (o : Outcome) : State :=
  let s0 := { s with loading := true, error := JsVal.str "" }
  let s1 :=
    match o with
    | Outcome.resolved data =>
      match data.getProp "status" with
      | none => { s0 with error := failureMessage "Verification failed" none }
      | some (JsVal.str status) =>
        if status = "success" then { s0 with stage := Stage.success } else s0
      | some _ => s0
    | Outcome.rejected response =>
      { s0 with error := failureMessage "Verification failed" response }
  { s1 with loading := false }

/-- The `maxLength="6"` attribute of the 2FA code input. -/
def maxLength : Nat := 6

/-- The expression `e.target.value.replace(/\D/g, '')`: every character that is
not one of `0`-`9` is removed. -/
def stripNonDigits (value : String) : String :=
  String.mk (value.toList.filter Char.isDigit)

/-- The `onChange` handler of the 2FA code input. -/
def onCodeChange (s : State) (value : String) : State :=
  { s with code := stripNonDigits value }

/-- The `onChange` handler of the password input. -/
def onPasswordChange (s : State) (value : String) : State :=
  { s with password := value }

/-! ## OnboardingFlow: what is rendered -/

/-- The JSX `{error && <div className="error-message">{error}</div>}`: the
message element exists exactly when `error` is truthy, and holds `error`. -/
def errorSlot (error : JsVal) : Option JsVal :=
  if error.truthy then some error else none

/-- What `OnboardingFlow` returns, branch by branch.
* `checking`: the text "Checking status..." and nothing else;
* `waiting`: the card with the "Check Status" button (`onClick={checkStatus}`);
* `password`: the city shown in `<strong>`, the password input and its value,
  the error element if any, and whether the submit button is disabled;
* `twoFA`: the code input and its value, the error element if any, and
  whether the submit button is disabled;
* `success`: the final card;
* `empty`: the closing `return null`. -/
inductive View where
  | checking
  | waiting
  | password (city : JsVal) (value : String) (error : Option JsVal) (disabled : Bool)
  | twoFA (value : String) (error : Option JsVal) (disabled : Bool)
  | success
  | empty

/-- The body of `OnboardingFlow` after the handlers: the chain of
`if (stage === ...) return ...` and the closing `return null`.  `none` stands
for the `TypeError` of reading `userInfo.city` from `null` or `undefined`. -/
def render (s : State) : Option View :=
  match s.stage with
  | Stage.checking => some View.checking
  | Stage.waiting => some View.waiting
  | Stage.password =>
    match s.userInfo.getProp "city" with
    | none => none
    | some city => some (View.password city s.password (errorSlot s.error) s.loading)
  | Stage.twoFA => some (View.twoFA s.code (errorSlot s.error) s.loading)
  | Stage.success => some View.success
  | Stage.challenge => some View.empty

/-- The error message a view displays, if it displays one. -/
def View.shownError : View → Option JsVal
  | View.password _ _ error _ => error
  | View.twoFA _ error _ => error
  | _ => none

/-- The city a view displays, if it displays one. -/
def View.shownCity : View → Option JsVal
  | View.password city _ _ _ => some city
  | _ => none

/-! ## OnboardingFlow: events -/

/-- What a user can do to a rendered view, with the outcome of the request the
bound handler sends:
* `clickCheckStatus`: the "Check Status" button;
* `changePassword value`: an edit of the password input leaving `value` in it;
* `submitPassword`: submission of the password form;
* `changeCode value`: an edit of the code input leaving `value` in it;
* `submit2FA`: submission of the 2FA form. -/
inductive Event where
  | clickCheckStatus (o : Outcome)
  | changePassword (value : String)
  | submitPassword (o : Outcome)
  | changeCode (value : String)
  | submit2FA (o : Outcome)

/-- Whether a view lets the user cause an event.  A form is submitted only when
its `required` input is non-empty and its submit button is not `disabled`; the
code input never holds more than `maxLength` characters. -/
def View.offers : View → Event → Bool
  | View.waiting, Event.clickCheckStatus _ => true
  | View.password _ _ _ _, Event.changePassword _ => true
  | View.password _ value _ disabled, Event.submitPassword _ =>
    !disabled && decide (value ≠ "")
  | View.twoFA _ _ _, Event.changeCode value => decide (value.length ≤ maxLength)
  | View.twoFA value _ disabled, Event.submit2FA _ => !disabled && decide (value ≠ "")
  | _, _ => false

/-- Whether the view rendered in state `s` offers the event. -/
def offers (s : State) (ev : Event) : Bool :=
  match render s with
  | some v => v.offers ev
  | none => false

/-- The handler each control binds, applied to the state. -/
def perform (s : State) : Event → State
  | Event.clickCheckStatus o => checkStatus s o
  | Event.changePassword value => onPasswordChange s value
  | Event.submitPassword o => handlePasswordSubmit s o
  | Event.changeCode value => onCodeChange s value
  | Event.submit2FA o => handle2FASubmit s o

/-- A session from state `s`: the events are delivered in order, each only if
the view rendered just before offers it; `none` when one is not offered. -/
def run (s : State) : List Event → Option State
  | [] => some s
  | ev :: rest => if offers s ev then run (perform s ev) rest else none

/-- The state after the mount effect `useEffect(() => { checkStatus(); })` has
run with outcome `o`. -/
def mounted (o : Outcome) : State :=
  checkStatus initialState o

/-- The states a session of one mounted `OnboardingFlow` (fixed `userId`) passes
through: the initial state, and every state reached from the state after the
mount effect by events the views offer. -/
def Reachable (s : State) : Prop :=
  s = initialState ∨ ∃ o tr, run (mounted o) tr = some s

/-- The invariant behind the password view: in stage `password` the stored
`userInfo` has a readable `city` property. -/
def CityReadable (s : State) : Prop :=
  s.stage = Stage.password → (s.userInfo.getProp "city").isSome = true

/-! ## OnboardingFlow: requests in flight -/

/-- The requests the component sends: `api.checkStatus` (mount effect and
"Check Status" button), `api.login` and `api.submit2FA` (the two forms).
`api.submitChallenge` is sent by `handleChallengeSubmit` only, which no control
binds. -/
inductive Request where
  | status
  | login
  | twoFA
  deriving DecidableEq, Repr

/-- The part of a submit handler before its `await`:
`setLoading(true); setError('')`. -/
def beginSubmit (s : State) : State :=
  { s with loading := true, error := JsVal.str "" }

/-- The part of `handlePasswordSubmit` from the `await` on (`try` body, `catch`,
`finally`), applied to the state current when the request ends. -/
def settleLogin (s : State) (o : Outcome) : State :=
  let s1 :=
    match o with
    | Outcome.resolved data =>
      match data.getProp "status" with
      | none => { s with error := failureMessage "Login failed" none }
      | some (JsVal.str status) =>
        if status = "2fa_required" then { s with stage := Stage.twoFA }
        else if status = "challenge_required" then { s with stage := Stage.challenge }
        else if status = "success" then { s with stage := Stage.success }
        else s
      | some _ => s
    | Outcome.rejected response =>
      { s with error := failureMessage "Login failed" response }
  { s1 with loading := false }

/-- The part of `handle2FASubmit` from the `await` on. -/
def settle2FA (s : State) (o : Outcome) : State :=
  let s1 :=
    match o with
    | Outcome.resolved data =>
      match data.getProp "status" with
      | none => { s with error := failureMessage "2FA failed" none }
      | some (JsVal.str status) =>
        if status = "success" then { s with stage := Stage.success } else s
      | some _ => s
    | Outcome.rejected response =>
      { s with error := failureMessage "2FA failed" response }
  { s1 with loading := false }

/-- What the end of a request does to the state current at that moment.
`checkStatus` does nothing before its `await`, so all of it runs then. -/
def settle (s : State) : Request → Outcome → State
  | Request.status, o => checkStatus s o
  | Request.login, o => settleLogin s o
  | Request.twoFA, o => settle2FA s o

/-- What a user can do to a rendered view, without the outcome of the request
it sends. -/
inductive Action where
  | clickCheckStatus
  | changePassword (value : String)
  | submitPassword
  | changeCode (value : String)
  | submit2FA

/-- The event an action becomes once the outcome of its request is known. -/
def Action.event : Action → Outcome → Event
  | Action.clickCheckStatus, o => Event.clickCheckStatus o
  | Action.changePassword value, _ => Event.changePassword value
  | Action.submitPassword, o => Event.submitPassword o
  | Action.changeCode value, _ => Event.changeCode value
  | Action.submit2FA, o => Event.submit2FA o

/-- Whether a view lets the user take an action; the same conditions as
`View.offers`. -/
def View.allows : View → Action → Bool
  | View.waiting, Action.clickCheckStatus => true
  | View.password _ _ _ _, Action.changePassword _ => true
  | View.password _ value _ disabled, Action.submitPassword =>
    !disabled && decide (value ≠ "")
  | View.twoFA _ _ _, Action.changeCode value => decide (value.length ≤ maxLength)
  | View.twoFA value _ disabled, Action.submit2FA => !disabled && decide (value ≠ "")
  | _, _ => false

/-- Whether the view rendered in state `s` lets the user take the action. -/
def allows (s : State) (a : Action) : Bool :=
  match render s with
  | some v => v.allows a
  | none => false

/-- The synchronous part of the handler an action runs, and the request it
sends, if any. -/
def start (s : State) : Action → State × Option Request
  | Action.clickCheckStatus => (s, some Request.status)
  | Action.changePassword value => (onPasswordChange s value, none)
  | Action.submitPassword => (beginSubmit s, some Request.login)
  | Action.changeCode value => (onCodeChange s value, none)
  | Action.submit2FA => (beginSubmit s, some Request.twoFA)

/-- A mounted `OnboardingFlow` with the requests that have been sent and have
not ended yet, oldest first. -/
structure Session where
  state : State
  inFlight : List Request

/-- The session right after mount: the effect has sent its status request. -/
def initialSession : Session :=
  { state := initialState, inFlight := [Request.status] }

/-- What happens next in a session: the user takes an action, or the request at
position `i` of those in flight ends with outcome `o`. -/
inductive Step where
  | act (a : Action)
  | respond (i : Nat) (o : Outcome)

/-- One step of a session; `none` when the view does not offer the action or
no request is in flight at that position. -/
def Session.step (x : Session) : Step → Option Session
  | Step.act a =>
    if allows x.state a then
      some { state := (start x.state a).1,
             inFlight := x.inFlight ++ (start x.state a).2.toList }
    else none
  | Step.respond i o =>
    match x.inFlight.get? i with
    | none => none
    | some r => some { state := settle x.state r o, inFlight := x.inFlight.eraseIdx i }

/-- The steps taken in order; `none` when one of them is not possible. -/
def Session.run (x : Session) : List Step → Option Session
  | [] => some x
  | st :: rest =>
    match x.step st with
    | none => none
    | some y => y.run rest

/-- One keystroke `c` with the caret at the end of the code input: the browser
inserts the character when the view accepts the longer value and `onChange`
runs; otherwise nothing happens. -/
def typeKey (s : State) (c : Char) : State :=
  if offers s (Event.changeCode (s.code.push c)) then
    perform s (Event.changeCode (s.code.push c))
  else s

/-- The characters of `text` typed one after the other. -/
def typeKeys (s : State) (text : String) : State :=
  text.toList.foldl typeKey s

end Onboarding

/-! ## App and ApplicationForm -/

namespace App

open Onboarding

/-- The values of `currentView`. -/
inductive CurrentView where
  | apply
  | onboarding
  deriving DecidableEq, Repr

/-- The `formData` cell of `ApplicationForm`. -/
structure FormData where
  email : String
  instagram_username : String
  city : String

/-- The `useState` cells of `ApplicationForm`. -/
structure FormState where
  formData : FormData
  loading : Bool
  error : JsVal

/-- The `useState` cells of `App`, together with those of the
`ApplicationForm` it renders. -/
structure AppState where
  currentView : CurrentView
  userId : JsVal
  form : FormState

/-- The state on mount. -/
def initialApp : AppState :=
  { currentView := CurrentView.apply, userId := JsVal.null,
    form := { formData := { email := "", instagram_username := "", city := "" },
              loading := false, error := JsVal.str "" } }

/-- The callback `handleApplicationSuccess`; `none` stands for the `TypeError`
of reading `data.user_id` from `null` or `undefined`, thrown before any
setter is called. -/
def handleApplicationSuccess (a : AppState) (data : JsVal) : Option AppState :=
  match data.getProp "user_id" with
  | none => none
  | some userId => some { a with userId := userId, currentView := CurrentView.onboarding }

/-- The handler `handleSubmit` of `ApplicationForm`, with `onSuccess` bound to
`handleApplicationSuccess` as `App` passes it. -/
def handleSubmit (a : AppState) (o : Outcome) : AppState :=
  let a0 := { a with form := { a.form with loading := true, error := JsVal.str "" } }
  let a1 :=
    match o with
    | Outcome.resolved data =>
      match handleApplicationSuccess a0 data with
      | some a1 => a1
      | none =>
        { a0 with form := { a0.form with error := failureMessage "Application failed" none } }
    | Outcome.rejected response =>
      { a0 with form := { a0.form with error := failureMessage "Application failed" response } }
  { a1 with form := { a1.form with loading := false } }

/-- A child of the `<div className="App">`: a plain value (React shows a string or
a number and nothing for `false`, `null`, `undefined`), the `ApplicationForm`
element with the error element it shows, or the `OnboardingFlow` element with
its `userId` prop. -/
inductive Child where
  | value (v : JsVal)
  | applicationForm (error : Option JsVal)
  | onboardingFlow (userId : JsVal)

/-- Whether a child is the `OnboardingFlow` element. -/
def Child.isOnboardingFlow : Child → Bool
  | Child.onboardingFlow _ => true
  | _ => false

/-- Whether a child is the `ApplicationForm` element. -/
def Child.isApplicationForm : Child → Bool
  | Child.applicationForm _ => true
  | _ => false

/-- The two children `App` returns:
`{currentView === 'apply' && <ApplicationForm .../>}` and
`{currentView === 'onboarding' && userId && <OnboardingFlow userId={userId} />}`. -/
def render (a : AppState) : List Child :=
  [ (if a.currentView = CurrentView.apply then Child.applicationForm (errorSlot a.form.error)
     else Child.value (JsVal.bool false)),
    (if a.currentView = CurrentView.onboarding then
       (if a.userId.truthy then Child.onboardingFlow a.userId else Child.value a.userId)
     else Child.value (JsVal.bool false)) ]

end App

/-! ## Auxiliary facts -/

namespace Onboarding

theorem truthy_str (d : String) : (JsVal.str d).truthy = decide (d ≠ "") := rfl

theorem failureMessage_of_detail (fallback : String) (r : Option JsVal) (d : String)
    (h : errorDetail r = JsVal.str d) (hd : d ≠ "") :
    failureMessage fallback r = JsVal.str d := by
  simp [failureMessage, JsVal.orElse, h, JsVal.truthy, hd]

theorem failureMessage_of_falsy (fallback : String) (r : Option JsVal)
    (h : (errorDetail r).truthy = false) :
    failureMessage fallback r = JsVal.str fallback := by
  simp [failureMessage, JsVal.orElse, h]

theorem failureMessage_truthy (fallback : String) (r : Option JsVal) (hf : fallback ≠ "") :
    (failureMessage fallback r).truthy = true := by
  unfold failureMessage JsVal.orElse
  split
  · assumption
  · simp [JsVal.truthy, hf]

theorem failureMessage_ne_empty (fallback : String) (r : Option JsVal) (hf : fallback ≠ "") :
    failureMessage fallback r ≠ JsVal.str "" := by
  intro h
  have ht := failureMessage_truthy fallback r hf
  rw [h] at ht
  simp [JsVal.truthy] at ht

theorem errorSlot_failureMessage (fallback : String) (r : Option JsVal) (hf : fallback ≠ "") :
    errorSlot (failureMessage fallback r) = some (failureMessage fallback r) := by
  simp [errorSlot, failureMessage_truthy fallback r hf]

theorem render_password_inv (s : State) (city : JsVal) (value : String) (e : Option JsVal)
    (d : Bool) (h : render s = some (View.password city value e d)) :
    s.stage = Stage.password ∧ s.userInfo.getProp "city" = some city ∧
      s.password = value ∧ errorSlot s.error = e ∧ s.loading = d := by
  unfold render at h
  split at h
  · simp at h
  · simp at h
  · rename_i hs
    split at h
    · simp at h
    · rename_i c hc
      simp at h
      exact ⟨hs, by rw [hc, h.1], h.2.1, h.2.2.1, h.2.2.2⟩
  · simp at h
  · simp at h
  · simp at h

theorem render_twoFA_inv (s : State) (value : String) (e : Option JsVal)
    (d : Bool) (h : render s = some (View.twoFA value e d)) :
    s.stage = Stage.twoFA ∧ s.code = value ∧ errorSlot s.error = e ∧ s.loading = d := by
  unfold render at h
  split at h
  · simp at h
  · simp at h
  · split at h <;> simp at h
  · rename_i hs
    simp at h
    exact ⟨hs, h.1, h.2.1, h.2.2⟩
  · simp at h
  · simp at h

/-! ## Sessions -/

theorem offers_false_of_checking (s : State) (h : s.stage = Stage.checking) (ev : Event) :
    offers s ev = false := by
  cases ev <;> simp [offers, render, h, View.offers]

theorem offers_false_of_success (s : State) (h : s.stage = Stage.success) (ev : Event) :
    offers s ev = false := by
  cases ev <;> simp [offers, render, h, View.offers]

theorem offers_false_of_challenge (s : State) (h : s.stage = Stage.challenge) (ev : Event) :
    offers s ev = false := by
  cases ev <;> simp [offers, render, h, View.offers]

theorem run_of_no_offers (s s' : State) (tr : List Event) (h : ∀ ev, offers s ev = false)
    (hr : run s tr = some s') : s' = s := by
  cases tr with
  | nil => simpa [run] using hr.symm
  | cons ev rest => simp [run, h ev] at hr

theorem render_eq_waiting (s : State) (h : render s = some View.waiting) :
    s.stage = Stage.waiting := by
  unfold render at h
  cases hs : s.stage <;> simp [hs] at h ⊢
  split at h <;> simp at h

theorem offers_clickCheckStatus (s : State) (o : Outcome)
    (h : offers s (Event.clickCheckStatus o) = true) : s.stage = Stage.waiting := by
  unfold offers at h
  cases hr : render s with
  | none => simp [hr] at h
  | some v =>
    cases v <;> simp [hr, View.offers] at h
    exact render_eq_waiting s hr

theorem getProp_isSome_of_getProp (data : JsVal) (k k' : String) (v : JsVal)
    (h : data.getProp k = some v) : (data.getProp k').isSome = true := by
  cases data <;> simp [JsVal.getProp] at h ⊢

theorem cityReadable_checkStatus (s : State) (o : Outcome) (h : s.stage ≠ Stage.password) :
    CityReadable (checkStatus s o) := by
  intro hp
  cases o with
  | rejected r => simp [checkStatus] at hp; exact absurd hp h
  | resolved data =>
    cases hc : data.getProp "can_login" with
    | none => simp [checkStatus, hc] at hp; exact absurd hp h
    | some v =>
      have := getProp_isSome_of_getProp data "can_login" "city" v hc
      by_cases ht : v.truthy = true
      · simpa [checkStatus, hc, ht] using this
      · simp [checkStatus, hc, ht] at hp

theorem handlePasswordSubmit_stage_ne_password (s : State) (o : Outcome)
    (h : (handlePasswordSubmit s o).stage = Stage.password) : s.stage = Stage.password := by
  unfold handlePasswordSubmit at h
  cases o with
  | rejected r => simpa using h
  | resolved data =>
    simp only at h
    split at h
    · simpa using h
    · split_ifs at h
      simpa using h
    · simpa using h

theorem handlePasswordSubmit_userInfo (s : State) (o : Outcome) :
    (handlePasswordSubmit s o).userInfo = s.userInfo := by
  unfold handlePasswordSubmit
  cases o with
  | rejected r => rfl
  | resolved data =>
    simp only
    split
    · rfl
    · split_ifs <;> rfl
    · rfl

theorem handle2FASubmit_stage_ne_password (s : State) (o : Outcome)
    (h : (handle2FASubmit s o).stage = Stage.password) : s.stage = Stage.password := by
  unfold handle2FASubmit at h
  cases o with
  | rejected r => simpa using h
  | resolved data =>
    simp only at h
    split at h
    · simpa using h
    · split_ifs at h
      simpa using h
    · simpa using h

theorem handle2FASubmit_userInfo (s : State) (o : Outcome) :
    (handle2FASubmit s o).userInfo = s.userInfo := by
  unfold handle2FASubmit
  cases o with
  | rejected r => rfl
  | resolved data =>
    simp only
    split
    · rfl
    · split_ifs <;> rfl
    · rfl

theorem cityReadable_perform (s : State) (ev : Event) (hi : CityReadable s)
    (ho : offers s ev = true) : CityReadable (perform s ev) := by
  cases ev with
  | clickCheckStatus o =>
    have hw := offers_clickCheckStatus s o ho
    exact cityReadable_checkStatus s o (by rw [hw]; decide)
  | changePassword value => exact hi
  | changeCode value => exact hi
  | submitPassword o =>
    intro hp
    have := hi (handlePasswordSubmit_stage_ne_password s o hp)
    simpa [perform, handlePasswordSubmit_userInfo] using this
  | submit2FA o =>
    intro hp
    have := hi (handle2FASubmit_stage_ne_password s o hp)
    simpa [perform, handle2FASubmit_userInfo] using this

theorem cityReadable_run (tr : List Event) :
    ∀ s s', CityReadable s → run s tr = some s' → CityReadable s' := by
  induction tr with
  | nil =>
    intro s s' hi hr
    simp [run] at hr
    exact hr ▸ hi
  | cons ev rest ih =>
    intro s s' hi hr
    by_cases ho : offers s ev = true
    · simp [run, ho] at hr
      exact ih _ _ (cityReadable_perform s ev hi ho) hr
    · simp [run, ho] at hr

theorem cityReadable_of_reachable (s : State) (h : Reachable s) : CityReadable s := by
  rcases h with h | ⟨o, tr, h⟩
  · subst h
    intro hp
    simp [initialState] at hp
  · exact cityReadable_run tr _ _
      (cityReadable_checkStatus initialState o (by simp [initialState])) h

/-! ## Typing into the code input -/

theorem typeKey_eq (s : State) (c : Char) (hs : s.stage = Stage.twoFA) :
    typeKey s c =
      if s.code.length + 1 ≤ 6 then { s with code := stripNonDigits (s.code.push c) }
      else s := by
  simp [typeKey, offers, render, hs, View.offers, perform, onCodeChange, maxLength]

theorem take_six_append (l r r' : List Char) (h : 6 ≤ l.length) :
    (l ++ r).take 6 = (l ++ r').take 6 := by
  rw [List.take_append_of_le_length h, List.take_append_of_le_length h]

theorem typeKeys_code (cs : List Char) :
    ∀ s : State, s.stage = Stage.twoFA → (∀ c ∈ s.code.toList, c.isDigit = true) →
      s.code.length ≤ 6 →
      (cs.foldl typeKey s).code
        = String.mk ((s.code.toList ++ cs.filter Char.isDigit).take 6) := by
  induction cs with
  | nil =>
    intro s _ _ hl
    have hlen : s.code.data.length ≤ 6 := hl
    simp [List.take_of_length_le hlen]
  | cons c cs ih =>
    intro s hs hd hl
    rw [List.foldl_cons, typeKey_eq s c hs]
    by_cases hlt : s.code.length + 1 ≤ 6
    · rw [if_pos hlt]
      have hfilter : (s.code.toList ++ [c]).filter Char.isDigit
          = s.code.toList ++ [c].filter Char.isDigit := by
        rw [List.filter_append, List.filter_eq_self.mpr hd]
      have hcode : (stripNonDigits (s.code.push c)).toList
          = s.code.toList ++ [c].filter Char.isDigit := by
        simp only [stripNonDigits, String.toList, String.data_push]
        exact hfilter
      have hlen : ([c].filter Char.isDigit).length ≤ 1 := by
        exact (List.length_filter_le _ _).trans (by simp)
      rw [ih { s with code := stripNonDigits (s.code.push c) } hs]
      · show String.mk (((stripNonDigits (s.code.push c)).toList ++ _).take 6) = _
        rw [hcode, List.append_assoc, ← List.filter_append]
        rfl
      · intro d hmem
        have hmem' : d ∈ (stripNonDigits (s.code.push c)).toList := hmem
        rw [hcode] at hmem'
        rcases List.mem_append.mp hmem' with h | h
        · exact hd d h
        · exact (List.mem_filter.mp h).2
      · show (stripNonDigits (s.code.push c)).toList.length ≤ 6
        rw [hcode, List.length_append]
        have : s.code.toList.length + 1 ≤ 6 := hlt
        omega
    · rw [if_neg hlt]
      rw [ih s hs hd hl]
      have : 6 ≤ s.code.toList.length := by
        have h1 : s.code.toList.length = s.code.length := rfl
        omega
      rw [take_six_append s.code.toList _ ((c :: cs).filter Char.isDigit) this]

/-! ## Requests in flight -/

theorem handlePasswordSubmit_eq_settle (s : State) (o : Outcome) :
    handlePasswordSubmit s o = settle (beginSubmit s) Request.login o := rfl

theorem handle2FASubmit_eq_settle (s : State) (o : Outcome) :
    handle2FASubmit s o = settle (beginSubmit s) Request.twoFA o := rfl

theorem offers_event_eq_allows (s : State) (a : Action) (o : Outcome) :
    offers s (a.event o) = allows s a := by
  unfold offers allows
  cases render s with
  | none => rfl
  | some v => cases v <;> cases a <;> rfl

/-- An atomic event is its action followed at once by the end of its request. -/
theorem perform_event_eq_settle (s : State) (a : Action) (o : Outcome) :
    perform s (a.event o)
      = match (start s a).2 with
        | some r => settle (start s a).1 r o
        | none => (start s a).1 := by
  cases a <;> rfl

theorem allows_false_of_success (s : State) (h : s.stage = Stage.success) (a : Action) :
    allows s a = false := by
  cases a <;> simp [allows, render, h, View.allows]

theorem step_none_of_settled_success (x : Session) (h : x.state.stage = Stage.success)
    (hq : x.inFlight = []) (st : Step) : x.step st = none := by
  cases st with
  | act a => simp [Session.step, allows_false_of_success x.state h a]
  | respond i o => simp [Session.step, hq]

end Onboarding

/-! ## The claims -/

namespace Onboarding

/-- C1: a login response that resolves while the stage is `password` moves the
stage to `2fa` when its status is "2fa_required", to `challenge` when it is
"challenge_required" and to `success` when it is "success"; a 2FA or challenge
submission that resolves with status "success" moves the stage to `success`. -/
theorem login_status_decides_stage (s : State) (data : JsVal) :
    (s.stage = Stage.password →
      data.getProp "status" = some (JsVal.str "2fa_required") →
        (handlePasswordSubmit s (Outcome.resolved data)).stage = Stage.twoFA) ∧
    (s.stage = Stage.password →
      data.getProp "status" = some (JsVal.str "challenge_required") →
        (handlePasswordSubmit s (Outcome.resolved data)).stage = Stage.challenge) ∧
    (s.stage = Stage.password →
      data.getProp "status" = some (JsVal.str "success") →
        (handlePasswordSubmit s (Outcome.resolved data)).stage = Stage.success) ∧
    (data.getProp "status" = some (JsVal.str "success") →
        (handle2FASubmit s (Outcome.resolved data)).stage = Stage.success) ∧
    (data.getProp "status" = some (JsVal.str "success") →
        (handleChallengeSubmit s (Outcome.resolved data)).stage = Stage.success) := by
  refine ⟨?_, ?_, ?_, ?_, ?_⟩
  · intro _ h
    simp [handlePasswordSubmit, h]
  · intro _ h
    simp [handlePasswordSubmit, h]
  · intro _ h
    simp [handlePasswordSubmit, h]
  · intro h
    simp [handle2FASubmit, h]
  · intro h
    simp [handleChallengeSubmit, h]

/-- The three login responses on a session waiting for the password, and a
successful code submission on sessions in `2fa` and `challenge`. -/
theorem login_status_decides_stage_witness :
    (handlePasswordSubmit { initialState with stage := Stage.password, password := "pw" }
      (Outcome.resolved (JsVal.obj [("status", JsVal.str "2fa_required")]))).stage
        = Stage.twoFA ∧
    (handlePasswordSubmit { initialState with stage := Stage.password, password := "pw" }
      (Outcome.resolved (JsVal.obj [("status", JsVal.str "challenge_required")]))).stage
        = Stage.challenge ∧
    (handlePasswordSubmit { initialState with stage := Stage.password, password := "pw" }
      (Outcome.resolved (JsVal.obj [("status", JsVal.str "success")]))).stage
        = Stage.success ∧
    (handle2FASubmit { initialState with stage := Stage.twoFA, code := "123456" }
      (Outcome.resolved (JsVal.obj [("status", JsVal.str "success")]))).stage
        = Stage.success ∧
    (handleChallengeSubmit { initialState with stage := Stage.challenge, code := "123456" }
      (Outcome.resolved (JsVal.obj [("status", JsVal.str "success")]))).stage
        = Stage.success :=
  ⟨(login_status_decides_stage _ _).1 rfl rfl,
   (login_status_decides_stage _ _).2.1 rfl rfl,
   (login_status_decides_stage _ _).2.2.1 rfl rfl,
   (login_status_decides_stage _ _).2.2.2.1 rfl,
   (login_status_decides_stage _ _).2.2.2.2 rfl⟩

/-- C2: after `checkStatus` receives a status response, the stage is `password`
when `can_login` is true and `waiting` when it is false, the response is stored
as `userInfo`, and the password view shows the city of the response. -/
theorem checkStatus_sets_stage_and_city (s : State) (data : JsVal) :
    (data.getProp "can_login" = some (JsVal.bool true) →
      (checkStatus s (Outcome.resolved data)).stage = Stage.password ∧
      (checkStatus s (Outcome.resolved data)).userInfo = data ∧
      (data.getProp "city").isSome = true ∧
      (render (checkStatus s (Outcome.resolved data))).bind View.shownCity
        = data.getProp "city") ∧
    (data.getProp "can_login" = some (JsVal.bool false) →
      (checkStatus s (Outcome.resolved data)).stage = Stage.waiting ∧
      (checkStatus s (Outcome.resolved data)).userInfo = data ∧
      render (checkStatus s (Outcome.resolved data)) = some View.waiting) := by
  constructor
  · intro h
    have hc : ∃ c, data.getProp "city" = some c := by
      cases data <;> simp [JsVal.getProp] at h ⊢
    obtain ⟨c, hc⟩ := hc
    simp [checkStatus, h, JsVal.truthy, render, hc, View.shownCity]
  · intro h
    simp [checkStatus, h, JsVal.truthy, render]

/-- The two scenarios of the specification: `{can_login: false}` leaves the
session in `waiting`; `{can_login: true, city: "Paris"}` moves it to `password`
and the view shows "Paris". -/
theorem checkStatus_sets_stage_and_city_witness :
    (checkStatus initialState
      (Outcome.resolved (JsVal.obj [("can_login", JsVal.bool false)]))).stage
        = Stage.waiting ∧
    (checkStatus initialState (Outcome.resolved
      (JsVal.obj [("can_login", JsVal.bool true), ("city", JsVal.str "Paris")]))).stage
        = Stage.password ∧
    (render (checkStatus initialState (Outcome.resolved
      (JsVal.obj [("can_login", JsVal.bool true), ("city", JsVal.str "Paris")])))).bind
        View.shownCity = some (JsVal.str "Paris") :=
  ⟨((checkStatus_sets_stage_and_city initialState
      (JsVal.obj [("can_login", JsVal.bool false)])).2 rfl).1,
   ((checkStatus_sets_stage_and_city initialState
      (JsVal.obj [("can_login", JsVal.bool true), ("city", JsVal.str "Paris")])).1 rfl).1,
   ((checkStatus_sets_stage_and_city initialState
      (JsVal.obj [("can_login", JsVal.bool true), ("city", JsVal.str "Paris")])).1 rfl).2.2.2⟩

end Onboarding

namespace Onboarding

/-- What holds on the code for every rejection of apply, login, submit-2fa and
submit-challenge: the handler leaves the stage (for apply: the current view) as
it was and sets the error to the backend's detail when that is a non-empty
string and to its own fallback ("Application failed", "Login failed",
"2FA failed", "Verification failed") when the detail is empty or absent; the
error is never the empty string; the apply, password and 2FA views show it in
their error element with everything else in the view unchanged.  Nothing is
said here about what is displayed in stage `challenge`. -/
theorem rejection_keeps_stage_and_shows_error (r : Option JsVal) (s : State)
    (a : App.AppState) :
    ((handlePasswordSubmit s (Outcome.rejected r)).stage = s.stage ∧
      (handlePasswordSubmit s (Outcome.rejected r)).error = failureMessage "Login failed" r ∧
      (∀ city value e d, render s = some (View.password city value e d) →
        render (handlePasswordSubmit s (Outcome.rejected r))
          = some (View.password city value (some (failureMessage "Login failed" r)) false))) ∧
    ((handle2FASubmit s (Outcome.rejected r)).stage = s.stage ∧
      (handle2FASubmit s (Outcome.rejected r)).error = failureMessage "2FA failed" r ∧
      (∀ value e d, render s = some (View.twoFA value e d) →
        render (handle2FASubmit s (Outcome.rejected r))
          = some (View.twoFA value (some (failureMessage "2FA failed" r)) false))) ∧
    ((handleChallengeSubmit s (Outcome.rejected r)).stage = s.stage ∧
      (handleChallengeSubmit s (Outcome.rejected r)).error
        = failureMessage "Verification failed" r) ∧
    ((App.handleSubmit a (Outcome.rejected r)).currentView = a.currentView ∧
      (App.handleSubmit a (Outcome.rejected r)).userId = a.userId ∧
      (App.handleSubmit a (Outcome.rejected r)).form.error
        = failureMessage "Application failed" r ∧
      (a.currentView = App.CurrentView.apply →
        App.render (App.handleSubmit a (Outcome.rejected r))
          = [App.Child.applicationForm (some (failureMessage "Application failed" r)),
             App.Child.value (JsVal.bool false)])) ∧
    (∀ fallback ∈ ["Application failed", "Login failed", "2FA failed", "Verification failed"],
      failureMessage fallback r ≠ JsVal.str "" ∧
      (failureMessage fallback r).truthy = true ∧
      (∀ d, errorDetail r = JsVal.str d → d ≠ "" → failureMessage fallback r = JsVal.str d) ∧
      ((errorDetail r).truthy = false → failureMessage fallback r = JsVal.str fallback)) := by
  refine ⟨⟨rfl, rfl, ?_⟩, ⟨rfl, rfl, ?_⟩, ⟨rfl, rfl⟩, ⟨rfl, rfl, rfl, ?_⟩, ?_⟩
  · intro city value e d h
    obtain ⟨hs, hc, hp, _, _⟩ := render_password_inv s city value e d h
    simp [render, handlePasswordSubmit, hs, hc, hp,
      errorSlot_failureMessage "Login failed" r (by decide)]
  · intro value e d h
    obtain ⟨hs, hc, _, _⟩ := render_twoFA_inv s value e d h
    simp [render, handle2FASubmit, hs, hc,
      errorSlot_failureMessage "2FA failed" r (by decide)]
  · intro h
    simp [App.render, App.handleSubmit, h,
      errorSlot_failureMessage "Application failed" r (by decide)]
  · intro fallback hmem
    have hf : fallback ≠ "" := by
      simp only [List.mem_cons, List.mem_singleton, List.not_mem_nil, or_false] at hmem
      rcases hmem with h | h | h | h <;> subst h <;> decide
    exact ⟨failureMessage_ne_empty fallback r hf, failureMessage_truthy fallback r hf,
      fun d h hd => failureMessage_of_detail fallback r d h hd,
      fun h => failureMessage_of_falsy fallback r h⟩

/-- A rejected login on a password view, in the three shapes of a rejection: a
detail string is shown as it is, an empty detail and a missing response give
"Login failed"; the view is the password view in each case. -/
theorem rejection_keeps_stage_and_shows_error_witness :
    render (handlePasswordSubmit
        { initialState with stage := Stage.password, password := "pw",
                            userInfo := JsVal.obj [("city", JsVal.str "Paris")] }
        (Outcome.rejected (some (JsVal.obj [("detail", JsVal.str "Invalid password")]))))
      = some (View.password (JsVal.str "Paris") "pw" (some (JsVal.str "Invalid password")) false) ∧
    render (handlePasswordSubmit
        { initialState with stage := Stage.password, password := "pw",
                            userInfo := JsVal.obj [("city", JsVal.str "Paris")] }
        (Outcome.rejected (some (JsVal.obj [("detail", JsVal.str "")]))))
      = some (View.password (JsVal.str "Paris") "pw" (some (JsVal.str "Login failed")) false) ∧
    render (handlePasswordSubmit
        { initialState with stage := Stage.password, password := "pw",
                            userInfo := JsVal.obj [("city", JsVal.str "Paris")] }
        (Outcome.rejected none))
      = some (View.password (JsVal.str "Paris") "pw" (some (JsVal.str "Login failed")) false) :=
  ⟨(rejection_keeps_stage_and_shows_error
      (some (JsVal.obj [("detail", JsVal.str "Invalid password")]))
      { initialState with stage := Stage.password, password := "pw",
                          userInfo := JsVal.obj [("city", JsVal.str "Paris")] }
      App.initialApp).1.2.2 (JsVal.str "Paris") "pw" none false rfl,
   (rejection_keeps_stage_and_shows_error
      (some (JsVal.obj [("detail", JsVal.str "")]))
      { initialState with stage := Stage.password, password := "pw",
                          userInfo := JsVal.obj [("city", JsVal.str "Paris")] }
      App.initialApp).1.2.2 (JsVal.str "Paris") "pw" none false rfl,
   (rejection_keeps_stage_and_shows_error none
      { initialState with stage := Stage.password, password := "pw",
                          userInfo := JsVal.obj [("city", JsVal.str "Paris")] }
      App.initialApp).1.2.2 (JsVal.str "Paris") "pw" none false rfl⟩

/-- C3, evaluated on the code: a rejected challenge submission in stage
`challenge` leaves the stage unchanged and sets the error ("Invalid code" from
the backend's detail, "Verification failed" without a response), but the
component returns `null` in that stage, so no error is displayed. -/
theorem challenge_rejection_shows_no_error :
    (handleChallengeSubmit { initialState with stage := Stage.challenge, code := "123456" }
        (Outcome.rejected (some (JsVal.obj [("detail", JsVal.str "Invalid code")])))).stage
      = Stage.challenge ∧
    (handleChallengeSubmit { initialState with stage := Stage.challenge, code := "123456" }
        (Outcome.rejected (some (JsVal.obj [("detail", JsVal.str "Invalid code")])))).error
      = JsVal.str "Invalid code" ∧
    render (handleChallengeSubmit
        { initialState with stage := Stage.challenge, code := "123456" }
        (Outcome.rejected (some (JsVal.obj [("detail", JsVal.str "Invalid code")]))))
      = some View.empty ∧
    (render (handleChallengeSubmit
        { initialState with stage := Stage.challenge, code := "123456" }
        (Outcome.rejected (some (JsVal.obj [("detail", JsVal.str "Invalid code")]))))).bind
      View.shownError = none ∧
    (handleChallengeSubmit { initialState with stage := Stage.challenge, code := "123456" }
        (Outcome.rejected none)).error
      = JsVal.str "Verification failed" ∧
    (render (handleChallengeSubmit
        { initialState with stage := Stage.challenge, code := "123456" }
        (Outcome.rejected none))).bind View.shownError = none :=
  ⟨rfl, rfl, rfl, rfl, rfl, rfl⟩

/-- C4, as the code has it: when a login, 2FA or challenge request succeeds and
the `status` of the response is none of those the handler tests for, the
handler leaves the stage unchanged, and the error is the empty string it was
reset to on submission, so that no error element is rendered. -/
theorem unrecognised_status_keeps_stage_clears_error (s : State) (data v : JsVal)
    (h : data.getProp "status" = some v) :
    (v ≠ JsVal.str "2fa_required" → v ≠ JsVal.str "challenge_required" →
      v ≠ JsVal.str "success" →
        (handlePasswordSubmit s (Outcome.resolved data)).stage = s.stage ∧
        (handlePasswordSubmit s (Outcome.resolved data)).error = JsVal.str "" ∧
        errorSlot (handlePasswordSubmit s (Outcome.resolved data)).error = none) ∧
    (v ≠ JsVal.str "success" →
        (handle2FASubmit s (Outcome.resolved data)).stage = s.stage ∧
        (handle2FASubmit s (Outcome.resolved data)).error = JsVal.str "" ∧
        errorSlot (handle2FASubmit s (Outcome.resolved data)).error = none) ∧
    (v ≠ JsVal.str "success" →
        (handleChallengeSubmit s (Outcome.resolved data)).stage = s.stage ∧
        (handleChallengeSubmit s (Outcome.resolved data)).error = JsVal.str "" ∧
        errorSlot (handleChallengeSubmit s (Outcome.resolved data)).error = none) := by
  refine ⟨?_, ?_, ?_⟩
  · intro h1 h2 h3
    cases v <;> simp [handlePasswordSubmit, h, errorSlot, JsVal.truthy] at h1 h2 h3 ⊢
    simp [h1, h2, h3]
  · intro h3
    cases v <;> simp [handle2FASubmit, h, errorSlot, JsVal.truthy] at h3 ⊢
    simp [h3]
  · intro h3
    cases v <;> simp [handleChallengeSubmit, h, errorSlot, JsVal.truthy] at h3 ⊢
    simp [h3]

/-- A login answered with the status "failed" on a password view: the view
stays the password view and shows no error. -/
theorem unrecognised_status_keeps_stage_clears_error_witness :
    (handlePasswordSubmit
        { initialState with stage := Stage.password, password := "pw",
                            userInfo := JsVal.obj [("city", JsVal.str "Paris")] }
        (Outcome.resolved (JsVal.obj [("status", JsVal.str "failed")]))).stage
      = Stage.password ∧
    (handle2FASubmit { initialState with stage := Stage.twoFA, code := "123456" }
        (Outcome.resolved (JsVal.obj [("status", JsVal.str "invalid_code")]))).stage
      = Stage.twoFA :=
  ⟨((unrecognised_status_keeps_stage_clears_error
      { initialState with stage := Stage.password, password := "pw",
                          userInfo := JsVal.obj [("city", JsVal.str "Paris")] }
      (JsVal.obj [("status", JsVal.str "failed")]) (JsVal.str "failed") rfl).1
        (by simp) (by simp) (by simp)).1,
   ((unrecognised_status_keeps_stage_clears_error
      { initialState with stage := Stage.twoFA, code := "123456" }
      (JsVal.obj [("status", JsVal.str "invalid_code")]) (JsVal.str "invalid_code") rfl).2.1
        (by simp)).1⟩

/-- C4 as stated fails: a login that succeeds with the status "failed" leaves
the stage `password`, but the error after the handler is the empty string and
the password view shows no error element. -/
theorem unrecognised_status_error_counterexample :
    (handlePasswordSubmit
        { initialState with stage := Stage.password, password := "pw",
                            userInfo := JsVal.obj [("city", JsVal.str "Paris")] }
        (Outcome.resolved (JsVal.obj [("status", JsVal.str "failed")]))).error
      = JsVal.str "" ∧
    render (handlePasswordSubmit
        { initialState with stage := Stage.password, password := "pw",
                            userInfo := JsVal.obj [("city", JsVal.str "Paris")] }
        (Outcome.resolved (JsVal.obj [("status", JsVal.str "failed")])))
      = some (View.password (JsVal.str "Paris") "pw" none false) :=
  ⟨rfl, rfl⟩

end Onboarding

namespace Onboarding

/-- C5, evaluated on the code: a login answered with "challenge_required" puts
the session in stage `challenge`; there `OnboardingFlow` returns `null`, so the
view offers no event at all (`handleChallengeSubmit` is bound to no control),
and every session that continues from this state stays in `challenge`. -/
theorem challenge_view_offers_nothing :
    (handlePasswordSubmit
        { initialState with stage := Stage.password, password := "pw",
                            userInfo := JsVal.obj [("city", JsVal.str "Paris")] }
        (Outcome.resolved (JsVal.obj [("status", JsVal.str "challenge_required")]))).stage
      = Stage.challenge ∧
    render (handlePasswordSubmit
        { initialState with stage := Stage.password, password := "pw",
                            userInfo := JsVal.obj [("city", JsVal.str "Paris")] }
        (Outcome.resolved (JsVal.obj [("status", JsVal.str "challenge_required")])))
      = some View.empty ∧
    (∀ ev, offers (handlePasswordSubmit
        { initialState with stage := Stage.password, password := "pw",
                            userInfo := JsVal.obj [("city", JsVal.str "Paris")] }
        (Outcome.resolved (JsVal.obj [("status", JsVal.str "challenge_required")]))) ev
      = false) ∧
    (∀ tr s', run (handlePasswordSubmit
        { initialState with stage := Stage.password, password := "pw",
                            userInfo := JsVal.obj [("city", JsVal.str "Paris")] }
        (Outcome.resolved (JsVal.obj [("status", JsVal.str "challenge_required")]))) tr
      = some s' → s'.stage = Stage.challenge) := by
  refine ⟨rfl, rfl, fun ev => offers_false_of_challenge _ rfl ev, ?_⟩
  intro tr s' hr
  rw [run_of_no_offers _ s' tr (fun ev => offers_false_of_challenge _ rfl ev) hr]
  rfl

/-- C6, as the code has it: when the stage is `success` and no request is in
flight, the rendered view offers no action and no response is outstanding, so
no step is possible and every state the session reaches from there is that
same state, with stage `success`. -/
theorem success_is_terminal_when_settled (x x' : Session) (tr : List Step)
    (h : x.state.stage = Stage.success) (hq : x.inFlight = [])
    (hr : x.run tr = some x') :
    (∀ a, allows x.state a = false) ∧ (∀ st, x.step st = none) ∧
    x' = x ∧ x'.state.stage = Stage.success := by
  have hx : x' = x := by
    cases tr with
    | nil => simpa [Session.run] using hr.symm
    | cons st rest =>
      simp [Session.run, step_none_of_settled_success x h hq st] at hr
  exact ⟨fun a => allows_false_of_success x.state h a,
    fun st => step_none_of_settled_success x h hq st, hx, by rw [hx]; exact h⟩

/-- The session that a successful login has put in `success`, every request
answered. -/
theorem success_is_terminal_when_settled_witness :
    Session.run initialSession
      [ Step.respond 0 (Outcome.resolved
          (JsVal.obj [("can_login", JsVal.bool true), ("city", JsVal.str "Paris")])),
        Step.act (Action.changePassword "pw"),
        Step.act Action.submitPassword,
        Step.respond 0 (Outcome.resolved (JsVal.obj [("status", JsVal.str "success")])) ]
      = some { state := { stage := Stage.success, password := "pw", code := "",
                          loading := false, error := JsVal.str "",
                          userInfo := JsVal.obj [("can_login", JsVal.bool true),
                                                 ("city", JsVal.str "Paris")] },
               inFlight := [] } ∧
    ({ state := { stage := Stage.success, password := "pw", code := "",
                  loading := false, error := JsVal.str "",
                  userInfo := JsVal.obj [("can_login", JsVal.bool true),
                                         ("city", JsVal.str "Paris")] },
       inFlight := [] } : Session).state.stage = Stage.success :=
  ⟨rfl,
   (success_is_terminal_when_settled
      { state := { stage := Stage.success, password := "pw", code := "",
                   loading := false, error := JsVal.str "",
                   userInfo := JsVal.obj [("can_login", JsVal.bool true),
                                          ("city", JsVal.str "Paris")] },
        inFlight := [] }
      _ [] rfl rfl rfl).2.2.2⟩

/-- C6 as stated fails: the "Check Status" button is clicked twice in `waiting`;
the first response moves the session to `password`, the login succeeds and the
stage is `success` while the second status request is still in flight; its
response `{can_login: false}` then sets the stage to `waiting`. -/
theorem success_left_by_late_status_counterexample :
    (Session.run initialSession
      [ Step.respond 0 (Outcome.resolved (JsVal.obj [("can_login", JsVal.bool false)])),
        Step.act Action.clickCheckStatus,
        Step.act Action.clickCheckStatus,
        Step.respond 0 (Outcome.resolved
          (JsVal.obj [("can_login", JsVal.bool true), ("city", JsVal.str "Paris")])),
        Step.act (Action.changePassword "pw"),
        Step.act Action.submitPassword,
        Step.respond 1 (Outcome.resolved (JsVal.obj [("status", JsVal.str "success")])) ]).map
      (fun x => (x.state.stage, x.inFlight)) = some (Stage.success, [Request.status]) ∧
    (Session.run initialSession
      [ Step.respond 0 (Outcome.resolved (JsVal.obj [("can_login", JsVal.bool false)])),
        Step.act Action.clickCheckStatus,
        Step.act Action.clickCheckStatus,
        Step.respond 0 (Outcome.resolved
          (JsVal.obj [("can_login", JsVal.bool true), ("city", JsVal.str "Paris")])),
        Step.act (Action.changePassword "pw"),
        Step.act Action.submitPassword,
        Step.respond 1 (Outcome.resolved (JsVal.obj [("status", JsVal.str "success")])),
        Step.respond 0 (Outcome.resolved (JsVal.obj [("can_login", JsVal.bool false)])) ]).map
      (fun x => (x.state.stage, x.inFlight)) = some (Stage.waiting, []) :=
  ⟨rfl, rfl⟩

/-- C7, evaluated on the code: when the status check of the mount effect fails,
the error is set to "Failed to check status" but the stage stays `checking`,
whose view shows no error and offers no event, so the session never leaves
`checking`; and when a status check fails in `waiting`, the view still offers
the check but shows no error. -/
theorem failed_status_check_is_silent :
    (mounted (Outcome.rejected none)).stage = Stage.checking ∧
    (mounted (Outcome.rejected none)).error = JsVal.str "Failed to check status" ∧
    render (mounted (Outcome.rejected none)) = some View.checking ∧
    (render (mounted (Outcome.rejected none))).bind View.shownError = none ∧
    (∀ ev, offers (mounted (Outcome.rejected none)) ev = false) ∧
    (∀ tr s', run (mounted (Outcome.rejected none)) tr = some s' →
      s'.stage = Stage.checking) ∧
    (∀ s : State, s.stage = Stage.waiting →
      (checkStatus s (Outcome.rejected none)).error = JsVal.str "Failed to check status" ∧
      (render (checkStatus s (Outcome.rejected none))).bind View.shownError = none ∧
      (∀ o, offers (checkStatus s (Outcome.rejected none)) (Event.clickCheckStatus o)
        = true)) := by
  refine ⟨rfl, rfl, rfl, rfl, fun ev => offers_false_of_checking _ rfl ev, ?_, ?_⟩
  · intro tr s' hr
    rw [run_of_no_offers _ s' tr (fun ev => offers_false_of_checking _ rfl ev) hr]
    rfl
  · intro s hs
    simp [checkStatus, render, hs, offers, View.offers, View.shownError]

/-- Typing key by key: the characters of any text typed into the empty 2FA code
input are stored as the text's digits `0`-`9` in their order, cut after the
sixth; and every value of at most `maxLength` characters handed to `onChange`
is stored as its digits in their order. -/
theorem typed_code_is_first_six_digits (s : State) (text : String)
    (hs : s.stage = Stage.twoFA) (hc : s.code = "") :
    (typeKeys s text).code = String.mk ((text.toList.filter Char.isDigit).take 6) ∧
    (offers s (Event.changeCode text) = true →
      (perform s (Event.changeCode text)).code
        = String.mk ((text.toList.filter Char.isDigit).take 6)) := by
  constructor
  · have h := typeKeys_code text.toList s hs (by simp [hc]) (by simp [hc])
    simpa [typeKeys, hc] using h
  · intro ho
    have hl : text.length ≤ 6 := by
      simpa [offers, render, hs, View.offers, maxLength] using ho
    have hlen : (text.data.filter Char.isDigit).length ≤ 6 :=
      (List.length_filter_le _ _).trans hl
    simp [perform, onCodeChange, stripNonDigits, List.take_of_length_le hlen]

/-- Typing "12a3b456" key by key stores "123456". -/
theorem typed_code_is_first_six_digits_witness :
    (typeKeys { initialState with stage := Stage.twoFA } "12a3b456").code = "123456" :=
  ((typed_code_is_first_six_digits { initialState with stage := Stage.twoFA } "12a3b456"
    rfl rfl).1).trans (by decide)

/-- C8, as the code has it: for every value the 2FA code input hands to its
`onChange` handler, the code that is stored is the value's decimal digits
`0`-`9` in their original order with every other character removed, and
nothing is cut off; the stored code has at most 6 characters whenever the value
has at most `maxLength` characters, which is all the view accepts. -/
theorem code_input_stores_digits (s : State) (value : String) :
    (onCodeChange s value).code = String.mk (value.toList.filter Char.isDigit) ∧
    (perform s (Event.changeCode value)).code
      = String.mk (value.toList.filter Char.isDigit) ∧
    (value.length ≤ maxLength → (onCodeChange s value).code.length ≤ 6) ∧
    (offers s (Event.changeCode value) = true →
      (perform s (Event.changeCode value)).code.length ≤ 6) := by
  have hlen : value.length ≤ maxLength → (onCodeChange s value).code.length ≤ 6 := by
    intro hl
    have h1 : (value.data.filter Char.isDigit).length ≤ value.data.length :=
      List.length_filter_le _ _
    have h2 : value.data.length ≤ 6 := hl
    exact h1.trans h2
  refine ⟨rfl, rfl, hlen, ?_⟩
  intro ho
  apply hlen
  unfold offers at ho
  cases hr : render s with
  | none => simp [hr] at ho
  | some v =>
    cases v <;> simp [hr, View.offers] at ho ⊢
    exact ho

/-- The value "12a3b456" handed to `onChange` is stored as "123456", and the
value "12a3b4", which the view accepts, as "1234". -/
theorem code_input_stores_digits_witness :
    (onCodeChange { initialState with stage := Stage.twoFA } "12a3b456").code = "123456" ∧
    (perform { initialState with stage := Stage.twoFA }
      (Event.changeCode "12a3b4")).code.length ≤ 6 :=
  ⟨((code_input_stores_digits { initialState with stage := Stage.twoFA } "12a3b456").1).trans
      (by decide),
   (code_input_stores_digits { initialState with stage := Stage.twoFA } "12a3b4").2.2.2
      (by decide)⟩

/-- C8 as stated fails: the value "1234567890" handed to `onChange` is stored
whole, ten characters long; and the view does not accept the eight characters
of "12a3b456" at once: cut to the `maxLength` the input allows they are
"12a3b4", which is stored as "1234", not "123456". -/
theorem code_input_not_truncated_counterexample :
    (onCodeChange { initialState with stage := Stage.twoFA } "1234567890").code
      = "1234567890" ∧
    offers { initialState with stage := Stage.twoFA } (Event.changeCode "12a3b456") = false ∧
    String.mk ("12a3b456".toList.take maxLength) = "12a3b4" ∧
    (perform { initialState with stage := Stage.twoFA } (Event.changeCode "12a3b4")).code
      = "1234" := by
  decide

end Onboarding

namespace App

open Onboarding

/-- C9, as the code has it: a successful apply response that carries a `user_id`
moves `App` from the apply view to `currentView = 'onboarding'` with `userId`
equal to that `user_id`; `OnboardingFlow` is rendered, with that `userId`, when
the `user_id` is truthy, and is not rendered when it is falsy (`0`, the empty
string, `null`, `false`). -/
theorem apply_success_renders_onboarding (a : AppState) (data userId : JsVal)
    (hv : a.currentView = CurrentView.apply)
    (h : data.getProp "user_id" = some userId) :
    render a = [Child.applicationForm (errorSlot a.form.error), Child.value (JsVal.bool false)] ∧
    (handleSubmit a (Outcome.resolved data)).currentView = CurrentView.onboarding ∧
    (handleSubmit a (Outcome.resolved data)).userId = userId ∧
    (userId.truthy = true →
      render (handleSubmit a (Outcome.resolved data))
        = [Child.value (JsVal.bool false), Child.onboardingFlow userId]) ∧
    (userId.truthy = false →
      render (handleSubmit a (Outcome.resolved data))
        = [Child.value (JsVal.bool false), Child.value userId]) := by
  refine ⟨by simp [render, hv], ?_, ?_, ?_, ?_⟩
  · simp [handleSubmit, handleApplicationSuccess, h]
  · simp [handleSubmit, handleApplicationSuccess, h]
  · intro ht
    simp [render, handleSubmit, handleApplicationSuccess, h, ht]
  · intro ht
    simp [render, handleSubmit, handleApplicationSuccess, h, ht]

/-- The scenario of the specification: the backend answers `{user_id: "u1"}` and
`OnboardingFlow` is rendered with `userId` "u1". -/
theorem apply_success_renders_onboarding_witness :
    render (handleSubmit initialApp
        (Outcome.resolved (JsVal.obj [("user_id", JsVal.str "u1")])))
      = [Child.value (JsVal.bool false), Child.onboardingFlow (JsVal.str "u1")] :=
  (apply_success_renders_onboarding initialApp
    (JsVal.obj [("user_id", JsVal.str "u1")]) (JsVal.str "u1") rfl rfl).2.2.2.1 rfl

/-- C9 as stated fails: with `user_id` equal to `0`, and with `user_id` equal to
the empty string, `currentView` becomes `'onboarding'` and no `OnboardingFlow`
element is rendered. -/
theorem apply_falsy_user_id_counterexample :
    (handleSubmit initialApp
        (Outcome.resolved (JsVal.obj [("user_id", JsVal.num 0)]))).currentView
      = CurrentView.onboarding ∧
    render (handleSubmit initialApp
        (Outcome.resolved (JsVal.obj [("user_id", JsVal.num 0)])))
      = [Child.value (JsVal.bool false), Child.value (JsVal.num 0)] ∧
    (render (handleSubmit initialApp
        (Outcome.resolved (JsVal.obj [("user_id", JsVal.num 0)])))).any
          Child.isOnboardingFlow = false ∧
    render (handleSubmit initialApp
        (Outcome.resolved (JsVal.obj [("user_id", JsVal.str "")])))
      = [Child.value (JsVal.bool false), Child.value (JsVal.str "")] ∧
    (render (handleSubmit initialApp
        (Outcome.resolved (JsVal.obj [("user_id", JsVal.str "")])))).any
          Child.isOnboardingFlow = false :=
  ⟨rfl, rfl, rfl, rfl, rfl⟩

end App

namespace Onboarding

/-- C10: in every state a session reaches from the initial state, stage
`password` implies that `userInfo` is neither `null` nor `undefined`, so the
read of `userInfo.city` succeeds and the password view is rendered. -/
theorem password_view_reads_city (s : State) (h : Reachable s)
    (hp : s.stage = Stage.password) :
    s.userInfo ≠ JsVal.null ∧ s.userInfo ≠ JsVal.undefined ∧
    (s.userInfo.getProp "city").isSome = true ∧ (render s).isSome = true := by
  have hc := cityReadable_of_reachable s h hp
  refine ⟨?_, ?_, hc, ?_⟩
  · intro hn
    simp [hn, JsVal.getProp] at hc
  · intro hn
    simp [hn, JsVal.getProp] at hc
  · obtain ⟨c, hc⟩ := Option.isSome_iff_exists.mp hc
    simp [render, hp, hc]

/-- The session whose mount effect receives `{can_login: true, city: "Paris"}`. -/
theorem password_view_reads_city_witness :
    (render (mounted (Outcome.resolved
      (JsVal.obj [("can_login", JsVal.bool true), ("city", JsVal.str "Paris")])))).isSome
        = true :=
  (password_view_reads_city
    (mounted (Outcome.resolved
      (JsVal.obj [("can_login", JsVal.bool true), ("city", JsVal.str "Paris")])))
    (Or.inr ⟨_, [], rfl⟩) rfl).2.2.2

end Onboarding
